import Mathlib

/-!
Verification development for `build.py`, a static-site builder that fetches
paginated dataset rows over HTTP and renders them into static HTML pages,
an index document and an optional XML sitemap.

The Python source is shallowly embedded: pure string/templating functions
become Lean functions on `String`; the fetch loop of `main` becomes a
recursion over a finite script of fetch results; file writes are recorded
in an output structure instead of touching a filesystem.
-/

namespace Build

/-! ## Date normalizer (`ts_to_date`, build.py lines 50-57) -/

/-- Values the `date` field of a row may hold after JSON decoding, as seen by
`ts_to_date`: Python `None` (absent key), a string, or an integer. -/
inductive TsLike where
  | null : TsLike
  | str (s : String) : TsLike
  | int (n : Int) : TsLike
deriving DecidableEq, Repr

/-- Embeds Python `str(ts_like)` on the values of `TsLike`.  `ts_to_date`
short-circuits on `None` before ever calling `str`, so the `"None"` branch is
reachable only if that short-circuit were removed. -/
def pyStr : TsLike → String
  | .null => "None"
  | .str s => s
  | .int n => toString n

/-- Embeds Python `s.replace(",", "")`: every comma is removed, all other
characters kept in order. -/
def stripCommas (s : String) : String :=
  String.mk (s.data.filter (fun c => c ≠ ','))

/-- Value of a list of decimal digit characters, most significant first. -/
def digitsToNat : List Char → Nat
  | [] => 0
  | c :: t => (c.toNat - '0'.toNat) * 10 ^ t.length + digitsToNat t

/-- ASCII whitespace accepted around a Python float literal (`Py_ISSPACE`). -/
def isPySpace (c : Char) : Bool :=
  c = ' ' ∨ c = '\t' ∨ c = '\n' ∨ c = '\x0b' ∨ c = '\x0c' ∨ c = '\r'

/-- Strips leading and trailing whitespace, as `float()` does around the
literal. -/
def stripSpaces (l : List Char) : List Char :=
  ((l.dropWhile isPySpace).reverse.dropWhile isPySpace).reverse

/-- Splits a leading `+` or `-` sign off a literal, yielding the sign as
`1` or `-1`. -/
def splitSign (l : List Char) : Int × List Char :=
  match l with
  | c :: r => if c = '+' then (1, r) else if c = '-' then (-1, r) else (1, c :: r)
  | [] => (1, [])

/-- Tests whether a list starts with an ASCII digit. -/
def headIsDigit : List Char → Bool
  | d :: _ => d.isDigit
  | [] => false

/-- Worker for `takeDigitsU`, structurally recursive on a fuel that each
step strictly decreases along with the list. -/
def takeDigitsUAux : Nat → List Char → List Char × List Char
  | 0, l => ([], l)
  | fuel + 1, l =>
    match l with
    | [] => ([], [])
    | c :: r =>
      if c.isDigit then
        match r with
        | u :: rr =>
          if u = '_' ∧ headIsDigit rr then
            let p := takeDigitsUAux fuel rr
            (c :: p.1, p.2)
          else
            let p := takeDigitsUAux fuel r
            (c :: p.1, p.2)
        | [] => ([c], [])
      else ([], c :: r)

/-- Consumes a maximal Python `digitpart` — `digit (["_"] digit)*`, ASCII
digits with single underscores allowed only between digits — returning the
digits (underscores dropped, as Python evaluates them) and the rest. -/
def takeDigitsU (l : List Char) : List Char × List Char :=
  takeDigitsUAux l.length l

/-- Consumes the optional fraction `"." digitpart?` of a float literal. -/
def splitFrac (l : List Char) : List Char × List Char :=
  match l with
  | c :: r => if c = '.' then takeDigitsU r else ([], c :: r)
  | [] => ([], [])

/-- Parses the optional exponent `("e"|"E") sign? digitpart` that must end
the literal; `none` on trailing garbage or a malformed exponent. -/
def parseExpPart (l : List Char) : Option Int :=
  match l with
  | [] => some 0
  | c :: r =>
    if c = 'e' ∨ c = 'E' then
      let sg := splitSign r
      let ed := takeDigitsU sg.2
      if ed.1 = [] ∨ ed.2 ≠ [] then none
      else some (sg.1 * (digitsToNat ed.1 : Int))
    else none

/-- Number of binary digits of `n` (0 for 0), computed with `n` itself as
recursion fuel. -/
def bitlenAux : Nat → Nat → Nat
  | 0, _ => 0
  | fuel + 1, n => if n = 0 then 0 else bitlenAux fuel (n / 2) + 1

/-- Bit length: `2 ^ (bitlen n - 1) ≤ n < 2 ^ bitlen n` for `n ≥ 1`. -/
def bitlen (n : Nat) : Nat := bitlenAux n n

/-- Decides `den * 2 ^ j ≤ num` for an integer (possibly negative) `j`. -/
def ratGE (num den : Nat) (j : Int) : Bool :=
  if 0 ≤ j then den * 2 ^ j.toNat ≤ num else den ≤ num * 2 ^ (-j).toNat

/-- Rounds the positive rational `num / den` to the nearest IEEE-754
binary64 (ties to even, exponent clamped at the subnormal limit `2^-1074`),
returned as `(c, q)` with value `c * 2 ^ q`; the caller checks overflow.
This is the rounding `float()` performs when converting a decimal
literal. -/
def roundRatToDouble (num den : Nat) : Nat × Int :=
  let d0 : Int := (bitlen num : Int) - (bitlen den : Int)
  let p : Int := if ratGE num den d0 then d0 else d0 - 1
  let q : Int := max (p - 52) (-1074)
  let t : Nat × Nat × Nat :=
    if 0 ≤ q then
      let dv := den * 2 ^ q.toNat
      (num / dv, num % dv, dv)
    else
      let nm := num * 2 ^ (-q).toNat
      (nm / den, nm % den, den)
  let c0 := t.1
  let r := t.2.1
  let dv := t.2.2
  let c := if dv < 2 * r ∨ (2 * r = dv ∧ c0 % 2 = 1) then c0 + 1 else c0
  (c, q)

/-- Embeds `int(float(·))` on the non-negative decimal value
`m * 10 ^ eDec`: the value is rounded to the nearest binary64 — rounding to
the nearest double first, exactly as `float()` does, then truncating toward
zero — and `none` models the overflow to infinity on which `int()` raises.
The two early branches shortcut decimally huge or tiny exponents whose
rounding outcome (infinity, respectively zero) is already determined. -/
def roundTruncDouble (m : Nat) (eDec : Int) : Option Nat :=
  if m = 0 then some 0
  else if 309 ≤ eDec then none
  else if (bitlen m : Int) + 3 * eDec < -1076 then some 0
  else
    let num := m * 10 ^ eDec.toNat
    let den := 10 ^ (-eDec).toNat
    let cq := roundRatToDouble num den
    if 0 ≤ cq.2 then
      let v := cq.1 * 2 ^ cq.2.toNat
      if 2 ^ 1024 ≤ v then none else some v
    else some (cq.1 / 2 ^ (-cq.2).toNat)

/-- Embeds Python `int(float(s))` for ASCII literals: optional surrounding
whitespace, optional sign, a mantissa `digitpart ["." digitpart?] | "."
digitpart` with underscores between digits, and an optional exponent; the
decimal value is rounded to the nearest binary64 and truncated toward zero.
`none` covers every path on which the source's `except` branch fires:
ill-formed literals, `inf`/`nan` (on which `int()` raises), and exponent
overflow to infinity.  Non-ASCII digits and whitespace, which Python also
accepts, are outside the modelled alphabet. -/
def parseFloatTrunc (s : String) : Option Int :=
  let l := stripSpaces s.data
  let sg := splitSign l
  let ipr := takeDigitsU sg.2
  let fpr := splitFrac ipr.2
  if ipr.1 = [] ∧ fpr.1 = [] then none
  else
    match parseExpPart fpr.2 with
    | none => none
    | some e =>
      match roundTruncDouble (digitsToNat (ipr.1 ++ fpr.1)) (e - (fpr.1.length : Int)) with
      | none => none
      | some v => some (sg.1 * (v : Int))

/-- Civil date from a count of days since 1970-01-01 (proleptic Gregorian),
the arithmetic `time.gmtime` performs for the year, month and day fields:
returns `(year, month, day)`. -/
def civilFromDays (z0 : Int) : Int × Int × Int :=
  let z := z0 + 719468
  let era : Int := Int.fdiv z 146097
  let doe : Int := z - era * 146097
  let yoe : Int := Int.fdiv (doe - Int.fdiv doe 1460 + Int.fdiv doe 36524 - Int.fdiv doe 146096) 365
  let y : Int := yoe + era * 400
  let doy : Int := doe - (365 * yoe + Int.fdiv yoe 4 - Int.fdiv yoe 100)
  let mp : Int := Int.fdiv (5 * doy + 2) 153
  let d : Int := doy - Int.fdiv (153 * mp + 2) 5 + 1
  let m : Int := if mp < 10 then mp + 3 else mp - 9
  (if m ≤ 2 then y + 1 else y, m, d)

/-- Zero-pads a month or day number to two digits, as `strftime` does for
`%m` and `%d`. -/
def pad2i (n : Int) : String :=
  (if n < 10 then "0" else "") ++ toString n

/-- Embeds `time.strftime("%Y-%m-%d", time.gmtime(num))` for timestamps whose
year has four digits: split the timestamp into days since the epoch (flooring,
as `gmtime` does for negative remainders) and render the civil date. -/
def formatYMD (ts : Int) : String :=
  let (y, m, d) := civilFromDays (Int.fdiv ts 86400)
  toString y ++ "-" ++ pad2i m ++ "-" ++ pad2i d

/-- Smallest civil year the `time.gmtime` + `time.strftime` pipeline
formats: below it the 64-bit C library fails with `EOVERFLOW` because
`tm_year` is a 32-bit int (`-2 ^ 31 + 1900`), and Python raises
`OSError`. -/
def gmtimeMinYear : Int := -2147481748

/-- Largest civil year the `time.gmtime` + `time.strftime` pipeline
formats: although `gmtime` itself accepts years up to `2 ^ 31 - 1 + 1900`,
`strftime` raises `OverflowError` once `tm_year + 1900` exceeds
`2 ^ 31 - 1`; larger timestamps, including any too big for `time_t`
itself, raise `OSError` or `OverflowError`. -/
def gmtimeMaxYear : Int := 2147483647

/-- Civil year of a Unix timestamp, used for the `gmtime` range check. -/
def tsYear (num : Int) : Int :=
  (civilFromDays (Int.fdiv num 86400)).1

/-- Embeds `ts_to_date` (build.py lines 50-57): `None` short-circuits to `""`;
otherwise the string form has its commas stripped and is parsed as
`int(float(s))`; on success the timestamp is formatted `YYYY-MM-DD` in UTC,
and on any failure the comma-stripped string itself is returned.  The Lean
function is total: the `except Exception` branch of the source covers both
the `none` case of `parseFloatTrunc` and — for timestamps whose civil year
does not fit `tm_year` — the `OSError`/`OverflowError` raised by
`time.gmtime`, modelled by the year-range guard. -/
def ts_to_date (v : TsLike) : String :=
  match v with
  | .null => ""
  | _ =>
    let s := stripCommas (pyStr v)
    match parseFloatTrunc s with
    | some num =>
      if tsYear num < gmtimeMinYear ∨ gmtimeMaxYear < tsYear num then s
      else formatYMD num
    | none => s

/-! ## HTML escaping and the row renderer (`render_rows_to_html`, lines 70-88) -/

/-- Replacement performed by Python `html.escape` (with its default
`quote=True`) on one character.  The source applies sequential `str.replace`
passes, ampersands first; since no replacement output re-triggers a later
pass on characters it introduces, the net effect is this character-wise
map. -/
def escChar (c : Char) : List Char :=
  if c = '&' then ['&', 'a', 'm', 'p', ';']
  else if c = '<' then ['&', 'l', 't', ';']
  else if c = '>' then ['&', 'g', 't', ';']
  else if c = '"' then ['&', 'q', 'u', 'o', 't', ';']
  else if c = '\'' then ['&', '#', 'x', '2', '7', ';']
  else [c]

/-- Character list of the escaped form of a string. -/
def escList : List Char → List Char
  | [] => []
  | c :: t => escChar c ++ escList t

/-- Embeds Python `html.escape(s)` with the default `quote=True`. -/
def pyHtmlEscape (s : String) : String :=
  String.mk (escList s.data)

/-- Character lists in which every special character is accounted for by an
escape entity: the list is a concatenation of tokens, each either a single
character outside `&<>"'` or one of the five entities `html.escape` emits.
An occurrence of `<`, `>`, `"`, `'` is impossible, and every `&` opens an
entity, so such a list carries no unescaped special character from its
source data. -/
inductive Escaped : List Char → Prop where
  | nil : Escaped []
  | raw (c : Char) (h : c ∉ ['&', '<', '>', '"', '\'']) {t : List Char}
      (ht : Escaped t) : Escaped (c :: t)
  | amp {t : List Char} (ht : Escaped t) :
      Escaped ('&' :: 'a' :: 'm' :: 'p' :: ';' :: t)
  | lt {t : List Char} (ht : Escaped t) :
      Escaped ('&' :: 'l' :: 't' :: ';' :: t)
  | gt {t : List Char} (ht : Escaped t) :
      Escaped ('&' :: 'g' :: 't' :: ';' :: t)
  | quot {t : List Char} (ht : Escaped t) :
      Escaped ('&' :: 'q' :: 'u' :: 'o' :: 't' :: ';' :: t)
  | apos {t : List Char} (ht : Escaped t) :
      Escaped ('&' :: '#' :: 'x' :: '2' :: '7' :: ';' :: t)

/-- Inner dictionary of one dataset row as the renderer reads it: each
`r.get(key, default)` of the source is an `Option` field, `none` when the
key is absent. -/
structure Row where
  topic : Option String := none
  lang : Option String := none
  date : TsLike := .null
  full_text : Option String := none
  link : Option String := none
deriving DecidableEq, Repr

/-- One element of the API's `rows` array: `item.get("row", {})` yields the
inner dictionary, or an empty one when the key is absent. -/
structure RowItem where
  row : Option Row := none
deriving DecidableEq, Repr

/-- Resolves `item.get("row", {})`: a missing inner dictionary behaves as an
empty one, on which every field lookup returns its default. -/
def RowItem.inner (item : RowItem) : Row :=
  item.row.getD {}

/-- The five escaped field strings computed at the top of the renderer's
loop body for one item, in source order: `topic`, `lang`, `date`,
`full_text`, `link`. -/
def articleFields (item : RowItem) : List String :=
  let r := item.inner
  [ pyHtmlEscape (r.topic.getD "(untitled)"),
    pyHtmlEscape (r.lang.getD "").toUpper,
    pyHtmlEscape (ts_to_date r.date),
    pyHtmlEscape (r.full_text.getD ""),
    pyHtmlEscape (r.link.getD "") ]

/-- Embeds the `article` f-string of the renderer, filled with the escaped
fields of one item; the source-link block is emitted only when the escaped
link is non-empty. -/
def renderArticle (item : RowItem) : String :=
  match articleFields item with
  | [topic, lang, date, full_text, link] =>
    "\n<article>\n  <h2>" ++ topic ++
    "</h2>\n  <div class=\"badges\"><span class=\"chip\">" ++ lang ++
    "</span> <span class=\"chip\">" ++ date ++
    "</span></div>\n  <p>" ++ full_text ++ "</p>\n  " ++
    (if link ≠ "" then
      "<div class=\"source\"><a href=\"" ++ link ++ "\">" ++ link ++ "</a></div>"
     else "") ++
    "\n</article>\n"
  | _ => ""

/-- Embeds `render_rows_to_html` (lines 70-88): one article block per item,
in input order, joined with newlines. -/
def render_rows_to_html (rows : List RowItem) : String :=
  String.intercalate "\n" (rows.map renderArticle)

/-! ## Page filenames and the index writer (`page_filename`, `write_index`) -/

/-- Zero-pads a page number to at least four digits, as the format
`{page_idx:04d}` does. -/
def natPad4 (n : Nat) : String :=
  let s := toString n
  String.mk (List.replicate (4 - s.length) '0') ++ s

/-- Embeds `page_filename` (lines 90-91). -/
def page_filename (page_idx : Nat) : String :=
  "page-" ++ natPad4 page_idx ++ ".html"

/-- The fixed stylesheet constant `CSS` (lines 34-48) interpolated into every
document; braces are written as byte escapes. -/
def CSS : String :=
  "\n  body\x7bmargin:0; font-family:system-ui,-apple-system,Segoe UI,Roboto,Inter,Arial,sans-serif; background:#0f1220; color:#e8ecff\x7d\n" ++
  "  main\x7bmax-width:1100px;margin:0 auto;padding:20px\x7d header\x7bmax-width:1100px;margin:0 auto;padding:16px 20px 0\x7d\n" ++
  "  h1\x7bfont-size:22px;margin:12px 0\x7d\n" ++
  "  .grid\x7bdisplay:grid;grid-template-columns:repeat(auto-fill,minmax(320px,1fr));gap:16px;margin:16px 0\x7d\n" ++
  "  article\x7bbackground:#161a2b;border:1px solid #262a45;border-radius:16px;padding:16px;box-shadow:0 4px 14px rgba(0,0,0,.25)\x7d\n" ++
  "  h2\x7bfont-size:16px;margin:0 0 8px\x7d\n" ++
  "  .badges\x7bdisplay:flex;gap:8px;flex-wrap:wrap;margin-bottom:8px\x7d\n" ++
  "  .chip\x7bdisplay:inline-flex;align-items:center;gap:6px;background:#222642;border:1px solid #262a45;color:#9aa3c7;padding:4px 8px;border-radius:999px;font-size:12px\x7d\n" ++
  "  p\x7bwhite-space:pre-wrap;margin:0;color:#e1e6ff;line-height:1.45\x7d\n" ++
  "  a\x7bcolor:#6aa0ff;word-break:break-all;text-decoration:none\x7d\n" ++
  "  nav ul\x7bdisplay:flex;flex-wrap:wrap;gap:8px;list-style:none;padding:0\x7d\n" ++
  "  nav a.page\x7bdisplay:inline-block;padding:6px 10px;border-radius:10px;background:#222642;border:1px solid #262a45;text-decoration:none;color:#e8ecff;font-size:14px\x7d\n" ++
  "  footer\x7bmax-width:1100px;margin:0 auto;padding:16px 20px 40px;color:#9aa3c7\x7d\n"

/-- One `<li>` link of the index navigation list (line 128). -/
def pageLink (idx count : Nat) : String :=
  "<li><a class=\"page\" href=\"" ++ page_filename idx ++ "\">Page " ++
  toString idx ++ " <small>(" ++ toString count ++ " rows)</small></a></li>"

/-- The interpolation `''.join(links) if links else '<li>No pages found.</li>'`
of the index document (line 146). -/
def indexNav (pages : List (Nat × Nat)) : String :=
  let links := pages.map (fun p => pageLink p.1 p.2)
  if links.isEmpty then "<li>No pages found.</li>" else String.join links

/-- Text of the index document before the navigation list interpolation
(lines 129-146). -/
def indexDocPre (title dataset_url : String) : String :=
  "<!doctype html>\n<html lang=\"en\">\n<head>\n  <meta charset=\"utf-8\">\n  <meta name=\"viewport\" content=\"width=device-width, initial-scale=1\">\n  <meta name=\"robots\" content=\"index,follow\">\n  <title>" ++
  pyHtmlEscape title ++
  "</title>\n  <style>" ++ CSS ++ "</style>\n</head>\n<body>\n  <header>\n    <h1>" ++
  pyHtmlEscape title ++
  "</h1>\n    <div>Source: <a href=\"" ++ dataset_url ++ "\">" ++ dataset_url ++
  "</a></div>\n  </header>\n  <main>\n    <nav>\n      <ul>\n        "

/-- Text of the index document after the navigation list interpolation
(lines 146-153). -/
def indexDocPost : String :=
  "\n      </ul>\n    </nav>\n  </main>\n  <footer>License: CC BY 4.0. This index links to static subpages for easy crawling.</footer>\n</body>\n</html>\n"

/-- Embeds `write_index` (lines 123-157): content of the `index.html`
document written for a manifest of `(page index, row count)` pairs. -/
def write_index_html (pages : List (Nat × Nat)) (title dataset_url : String) : String :=
  indexDocPre title dataset_url ++ indexNav pages ++ indexDocPost

/-! ## URL joining (`urllib.parse.urljoin`, used by `write_sitemap`)

The model below transcribes CPython's `urlsplit`/`urlparse`/`urljoin`
pipeline.  Out of scope: the `ValueError` raised on unbalanced IPv6
brackets or forbidden netloc characters (the writer would crash there), and
bytes inputs. -/

/-- Splits a list at the first occurrence of a character, `none` when
absent; the character itself is dropped, as Python `str.split(c, 1)`
does. -/
def splitAtFirstCh (ch : Char) : List Char → Option (List Char × List Char)
  | [] => none
  | a :: t =>
    if a = ch then some ([], t)
    else
      match splitAtFirstCh ch t with
      | some p => some (a :: p.1, p.2)
      | none => none

/-- Python `str.split(c)` on a character list. -/
def splitOnCh (ch : Char) : List Char → List String
  | [] => [""]
  | a :: t =>
    match splitOnCh ch t with
    | [] => [""]
    | s :: rest =>
      if a = ch then "" :: s :: rest
      else (String.singleton a ++ s) :: rest

/-- Characters `urlsplit` strips from the front of a URL
(`_WHATWG_C0_CONTROL_OR_SPACE`). -/
def c0OrSpace (c : Char) : Bool := c.toNat ≤ 32

/-- Characters a URL scheme may contain after its initial letter. -/
def isSchemeChar (c : Char) : Bool :=
  c.isAlpha ∨ c.isDigit ∨ c = '+' ∨ c = '-' ∨ c = '.'

/-- Tests whether a list starts with an ASCII letter. -/
def headIsAlpha : List Char → Bool
  | c :: _ => c.isAlpha
  | [] => false

/-- The `_splitnetloc` helper: after a leading `//`, the netloc extends to
the first `/`, `?` or `#`. -/
def netlocSplit (l : List Char) : List Char × List Char :=
  match l with
  | '/' :: '/' :: r =>
    (r.takeWhile (fun c => ¬(c = '/' ∨ c = '?' ∨ c = '#')),
     r.dropWhile (fun c => ¬(c = '/' ∨ c = '?' ∨ c = '#')))
  | r => ([], r)

/-- Result of `urlparse`: the six URL components. -/
structure UrlParts where
  scheme : String
  netloc : String
  path : String
  params : String
  query : String
  fragment : String
deriving DecidableEq, Repr

/-- The scheme list `uses_relative` of `urllib.parse`. -/
def uses_relative : List String :=
  ["", "ftp", "http", "gopher", "nntp", "imap", "wais", "file", "https",
   "shttp", "mms", "prospero", "rtsp", "rtsps", "rtspu", "sftp", "svn",
   "svn+ssh", "ws", "wss"]

/-- The scheme list `uses_netloc` of `urllib.parse`. -/
def uses_netloc : List String :=
  ["", "ftp", "http", "gopher", "nntp", "telnet", "imap", "wais", "file",
   "mms", "https", "shttp", "snews", "prospero", "rtsp", "rtsps", "rtspu",
   "rsync", "svn", "svn+ssh", "sftp", "nfs", "git", "git+ssh", "ws", "wss"]

/-- The scheme list `uses_params` of `urllib.parse`. -/
def uses_params : List String :=
  ["", "ftp", "hdl", "prospero", "http", "imap", "https", "shttp", "rtsp",
   "rtsps", "rtspu", "sip", "sips", "mms", "sftp", "tel"]

/-- Embeds `urlsplit(url, dscheme)`: strips leading C0 controls and spaces,
removes tabs and line breaks, then splits off scheme (lower-cased, kept
only when its characters are legal), netloc, fragment and query, in that
order. -/
def urlsplitModel (url : String) (dscheme : String) :
    String × String × String × String × String :=
  let l1 := (url.data.dropWhile c0OrSpace).filter
    (fun c => ¬(c = '\t' ∨ c = '\r' ∨ c = '\n'))
  let sr : List Char × List Char :=
    match splitAtFirstCh ':' l1 with
    | some p =>
      if p.1 ≠ [] ∧ headIsAlpha p.1 ∧ p.1.all isSchemeChar
      then (p.1.map Char.toLower, p.2)
      else ([], l1)
    | none => ([], l1)
  let scheme := if sr.1 = [] then dscheme else String.mk sr.1
  let nr := netlocSplit sr.2
  let fr : List Char × List Char :=
    match splitAtFirstCh '#' nr.2 with
    | some p => (p.1, p.2)
    | none => (nr.2, [])
  let qr : List Char × List Char :=
    match splitAtFirstCh '?' fr.1 with
    | some p => (p.1, p.2)
    | none => (fr.1, [])
  (scheme, String.mk nr.1, String.mk qr.1, String.mk qr.2, String.mk fr.2)

/-- The `_splitparams` helper: splits `;params` off the last path
segment. -/
def splitParamsChars (path : List Char) : List Char × List Char :=
  if path.contains '/' then
    let seg := (path.reverse.takeWhile (fun c => c ≠ '/')).reverse
    match splitAtFirstCh ';' seg with
    | some p => (path.take (path.length - seg.length) ++ p.1, p.2)
    | none => (path, [])
  else
    match splitAtFirstCh ';' path with
    | some p => (p.1, p.2)
    | none => (path, [])

/-- Embeds `urlparse(url, dscheme)`: `urlsplit` plus the params split, the
latter only for schemes in `uses_params`. -/
def urlparseModel (url : String) (dscheme : String) : UrlParts :=
  let (scheme, netloc, path, query, fragment) := urlsplitModel url dscheme
  if scheme ∈ uses_params ∧ path.data.contains ';' then
    let pr := splitParamsChars path.data
    ⟨scheme, netloc, String.mk pr.1, String.mk pr.2, query, fragment⟩
  else
    ⟨scheme, netloc, path, "", query, fragment⟩

/-- Tests `url[:1] == '/'`. -/
def startsWithSlash (l : List Char) : Bool :=
  match l with
  | '/' :: _ => true
  | _ => false

/-- Tests `url[:2] == '//'`. -/
def startsWithSlashSlash (l : List Char) : Bool :=
  match l with
  | '/' :: '/' :: _ => true
  | _ => false

/-- Embeds `urlunsplit`. -/
def urlunsplitModel (scheme netloc url query fragment : String) : String :=
  let url :=
    if netloc ≠ "" ∨ (scheme ≠ "" ∧ scheme ∈ uses_netloc ∧ ¬ startsWithSlashSlash url.data)
    then
      let u1 := if url ≠ "" ∧ ¬ startsWithSlash url.data then "/" ++ url else url
      "//" ++ netloc ++ u1
    else url
  let url := if scheme ≠ "" then scheme ++ ":" ++ url else url
  let url := if query ≠ "" then url ++ "?" ++ query else url
  if fragment ≠ "" then url ++ "#" ++ fragment else url

/-- Embeds `urlunparse`. -/
def urlunparseModel (u : UrlParts) : String :=
  let url := if u.params ≠ "" then u.path ++ ";" ++ u.params else u.path
  urlunsplitModel u.scheme u.netloc url u.query u.fragment

/-- The middle-segment filter of `urljoin`
(`segments[1:-1] = filter(None, segments[1:-1])`). -/
def midFilter (l : List String) : List String :=
  match l with
  | [] => []
  | [x] => [x]
  | x :: rest =>
    match rest.getLast? with
    | some y => x :: ((rest.dropLast.filter (fun s => s ≠ "")) ++ [y])
    | none => [x]

/-- The dot-segment resolution loop of `urljoin`: `..` pops (ignoring
underflow), `.` is dropped, everything else appended. -/
def resolveDotSegs (segs : List String) : List String :=
  segs.foldl
    (fun acc seg =>
      if seg = ".." then acc.dropLast
      else if seg = "." then acc
      else acc ++ [seg]) []

/-- Embeds `urllib.parse.urljoin(base, url)`. -/
def urljoinModel (base url : String) : String :=
  if base = "" then url
  else if url = "" then base
  else
    let b := urlparseModel base ""
    let u := urlparseModel url b.scheme
    if u.scheme ≠ b.scheme ∨ u.scheme ∉ uses_relative then url
    else if u.scheme ∈ uses_netloc ∧ u.netloc ≠ "" then
      urlunparseModel ⟨u.scheme, u.netloc, u.path, u.params, u.query, u.fragment⟩
    else
      let netloc := if u.scheme ∈ uses_netloc then b.netloc else u.netloc
      if u.path = "" ∧ u.params = "" then
        urlunparseModel ⟨u.scheme, netloc, b.path, b.params,
          (if u.query = "" then b.query else u.query), u.fragment⟩
      else
        let base_parts := splitOnCh '/' b.path.data
        let base_parts :=
          if base_parts.getLast? = some "" then base_parts
          else base_parts.dropLast
        let segments :=
          if startsWithSlash u.path.data then splitOnCh '/' u.path.data
          else midFilter (base_parts ++ splitOnCh '/' u.path.data)
        let resolved := resolveDotSegs segments
        let resolved :=
          if segments.getLast? = some "." ∨ segments.getLast? = some ".."
          then resolved ++ [""] else resolved
        let p2 := String.intercalate "/" resolved
        let p2 := if p2 = "" then "/" else p2
        urlunparseModel ⟨u.scheme, netloc, p2, u.params, u.query, u.fragment⟩

/-! ## Sitemap writer (`write_sitemap`, lines 159-174) -/

/-- Trailing-slash normalization done by the inner `join` helper of
`write_sitemap` before URL joining (`u.endswith("/")` is a check of the
last character). -/
def ensureSlash (u : String) : String :=
  if u.data.getLast? = some '/' then u else u ++ "/"

/-- Embeds `join(u, p)` of `write_sitemap` (lines 162-165): appends the
trailing slash if missing, then joins with `urljoin`. -/
def sitemapJoin (u p : String) : String :=
  urljoinModel (ensureSlash u) p

/-- Absolute URLs listed by the sitemap, in emission order: the index first,
then one per manifest page. -/
def sitemapUrls (base_url : String) (pages : List (Nat × Nat)) : List String :=
  sitemapJoin base_url "index.html" ::
    pages.map (fun p => sitemapJoin base_url (page_filename p.1))

/-- Embeds `write_sitemap` (lines 159-174): `none` when no base URL is
configured (the source's `if not base_url: return None`), otherwise the
content of `sitemap.xml`, one `<url><loc>…</loc></url>` line per entry of
`sitemapUrls`, each location HTML-escaped. -/
def write_sitemap (base_url : String) (pages : List (Nat × Nat)) : Option String :=
  if base_url = "" then none
  else
    some (String.intercalate "\n"
      (["<?xml version=\"1.0\" encoding=\"UTF-8\"?>",
        "<urlset xmlns=\"http://www.sitemaps.org/schemas/sitemap/0.9\">"] ++
       (sitemapUrls base_url pages).map
         (fun u => "  <url><loc>" ++ pyHtmlEscape u ++ "</loc></url>") ++
       ["</urlset>"]))

/-! ## Row fetcher (`fetch_rows`, lines 59-68) -/

/-- Uppercase hexadecimal digit for a value below 16. -/
def hexUpper (n : Nat) : Char :=
  if n < 10 then Char.ofNat ('0'.toNat + n) else Char.ofNat ('A'.toNat + (n - 10))

/-- UTF-8 bytes of one character, as Python percent-encodes them. -/
def utf8Bytes (c : Char) : List Nat :=
  let n := c.toNat
  if n < 0x80 then [n]
  else if n < 0x800 then [0xC0 + n / 64, 0x80 + n % 64]
  else if n < 0x10000 then [0xE0 + n / 4096, 0x80 + n / 64 % 64, 0x80 + n % 64]
  else [0xF0 + n / 262144, 0x80 + n / 4096 % 64, 0x80 + n / 64 % 64, 0x80 + n % 64]

/-- Per-character encoding of `urllib.parse.quote_plus` with its default
arguments: ASCII letters, digits and `_.-~` pass through, a space becomes
`+`, and every other character is percent-encoded byte by byte. -/
def quotePlusChar (c : Char) : String :=
  if c.isAlphanum ∨ c = '_' ∨ c = '.' ∨ c = '-' ∨ c = '~' then String.singleton c
  else if c = ' ' then "+"
  else String.join ((utf8Bytes c).map
    (fun b => String.mk ['%', hexUpper (b / 16), hexUpper (b % 16)]))

/-- Embeds `urllib.parse.quote_plus` on a whole string. -/
def quotePlus (s : String) : String :=
  String.join (s.data.map quotePlusChar)

/-- The fixed API root `API` (line 32). -/
def API : String := "https://datasets-server.huggingface.co/rows"

/-- Embeds `urlencode(params)` over the five parameters `fetch_rows` builds,
in their dictionary insertion order; the integer parameters are rendered by
`str` and contain only safe characters. -/
def urlencodeParams (dataset config split : String) (offset length : Nat) : String :=
  "dataset=" ++ quotePlus dataset ++ "&config=" ++ quotePlus config ++
  "&split=" ++ quotePlus split ++ "&offset=" ++ toString offset ++
  "&length=" ++ toString length

/-- The URL `fetch_rows` requests (line 61). -/
def requestURL (dataset config split : String) (offset length : Nat) : String :=
  API ++ "?" ++ urlencodeParams dataset config split offset length

/-- HTTP response as the `fetch_rows` call observes it: the final status
and reason phrase after `urlopen`'s internal redirect handling, and the
body already decoded from JSON — `rows` is the value of the body's `rows`
key, `none` when the key is absent.  A malformed-JSON body (the spec's
`DecodeError`) raises inside `json.loads` and is outside this model. -/
structure HttpResponse where
  status : Nat
  reason : String := ""
  rows : Option (List RowItem) := none
deriving DecidableEq, Repr

/-- Embeds `fetch_rows` (lines 59-68) as a function of the response for the
requested URL.  For a final status outside the 2xx range, `urlopen`'s
`HTTPErrorProcessor` raises `urllib.error.HTTPError` — whose message is
`"HTTP Error \x7bcode\x7d: \x7breason\x7d"`, without the URL — before the
body of the `with` block runs, so the source's line-64 check never sees
such a response.  The `RuntimeError(f"HTTP \x7br.status\x7d for
\x7burl\x7d")` of line 65 therefore fires exactly for 2xx statuses other
than 200.  A 200 status returns `data.get("rows", [])`.  Both exceptions
are modelled as `Except.error` carrying the exception's message. -/
def fetch_rows (dataset config split : String) (offset length : Nat)
    (resp : HttpResponse) : Except String (List RowItem) :=
  let url := requestURL dataset config split offset length
  if resp.status < 200 ∨ 300 ≤ resp.status then
    Except.error ("HTTP Error " ++ toString resp.status ++ ": " ++ resp.reason)
  else if resp.status ≠ 200 then
    Except.error ("HTTP " ++ toString resp.status ++ " for " ++ url)
  else
    Except.ok (resp.rows.getD [])

/-! ## Orchestrator (`main`, lines 176-210)

The unbounded `while True` loop of `main` is driven by the successive
results of its `fetch_rows` calls.  A run is modelled by a finite script of
fetch results: `ok rows` for a call that returns, `err` for a call that
raises.  A script too short to reach the loop's exit underdetermines the
run, and the model returns `none` for it. -/

/-- Result of one `fetch_rows` call as the loop sees it. -/
inductive FetchResult where
  | ok (rows : List RowItem) : FetchResult
  | err : FetchResult
deriving DecidableEq, Repr

/-- Loop state of `main` at the top of an iteration, together with the page
writes performed so far: `pages_meta` is the manifest accumulated in the
variable of the same name, and `written` records each `write_page` call as
its page index and rows. -/
structure BuildState where
  page_idx : Nat
  offset : Nat
  pages_meta : List (Nat × Nat)
  written : List (Nat × List RowItem)
deriving DecidableEq, Repr

/-- Loop state on entry to `main`'s loop: `page_idx = 1`, `offset = 0`,
empty manifest, nothing written. -/
def initState : BuildState := ⟨1, 0, [], []⟩

/-- One non-empty iteration of the loop body (lines 199-203): render and
write the page, append `(page_idx, len(rows))` to the manifest, advance the
counters. -/
def stepState (rpp : Nat) (st : BuildState) (rows : List RowItem) : BuildState :=
  { page_idx := st.page_idx + 1
    offset := st.offset + rpp
    pages_meta := st.pages_meta ++ [(st.page_idx, rows.length)]
    written := st.written ++ [(st.page_idx, rows)] }

/-- How `main`'s loop ends: `done` via the `break` on empty rows, `raised`
via an exception propagating out of `fetch_rows`, `starved` when the script
ran out before either (an underdetermined run, not a program behavior). -/
inductive RunOutcome where
  | done (st : BuildState) : RunOutcome
  | raised (st : BuildState) : RunOutcome
  | starved (st : BuildState) : RunOutcome
deriving DecidableEq, Repr

/-- The fetch loop of `main` (lines 193-203) over a script of fetch
results. -/
def buildLoop (rpp : Nat) : List FetchResult → BuildState → RunOutcome
  | [], st => .starved st
  | .err :: _, st => .raised st
  | .ok rows :: rest, st =>
    if rows.isEmpty then .done st
    else buildLoop rpp rest (stepState rpp st rows)

/-- The loop states of `main` at the start of each iteration, in order,
beginning with the given state. -/
def buildTrace (rpp : Nat) : List FetchResult → BuildState → List BuildState
  | [], st => [st]
  | .err :: _, st => [st]
  | .ok rows :: rest, st =>
    if rows.isEmpty then [st]
    else st :: buildTrace rpp rest (stepState rpp st rows)

/-- Observable outcome of one invocation of `main`: the page files written,
the content of `index.html` if it was written, the content of `sitemap.xml`
if it was written, and whether an exception propagated. -/
structure MainResult where
  written : List (Nat × List RowItem)
  indexHtml : Option String
  sitemapXml : Option String
  raisedError : Bool
deriving DecidableEq, Repr

/-- Embeds `main` (lines 176-210) for a given dataset name, rows-per-page
and base URL, driven by a script of fetch results.  After the loop breaks
on empty rows, `write_index` always runs and `write_sitemap` runs exactly
when a base URL is configured; an exception from `fetch_rows` propagates
out of `main`, reaching neither writer. -/
def mainRun (dataset : String) (rpp : Nat) (base_url : String)
    (script : List FetchResult) : Option MainResult :=
  let dataset_url := "https://huggingface.co/datasets/" ++ dataset
  match buildLoop rpp script initState with
  | .done st =>
    some { written := st.written
           indexHtml := some (write_index_html st.pages_meta (dataset ++ " – index") dataset_url)
           sitemapXml := write_sitemap base_url st.pages_meta
           raisedError := false }
  | .raised st =>
    some { written := st.written, indexHtml := none, sitemapXml := none
           raisedError := true }
  | .starved _ => none

/-! ## Auxiliary predicates for the claims -/

/-- The string `needle` occurs contiguously inside `hay`. -/
def ContainsStr (hay needle : String) : Prop :=
  ∃ a b, hay = a ++ needle ++ b

/-- Invariant of `main`'s fetch loop at the start of an iteration: the next
offset is `(page_idx - 1) * rows_per_page`, the manifest holds the
consecutive page indices `1 … page_idx - 1`, and its entries pair each
written page's index with that page's row count, in write order. -/
def LoopInv (rpp : Nat) (st : BuildState) : Prop :=
  1 ≤ st.page_idx ∧
  st.offset = (st.page_idx - 1) * rpp ∧
  st.pages_meta.map Prod.fst = List.range' 1 (st.page_idx - 1) ∧
  st.pages_meta = st.written.map (fun w => (w.1, w.2.length))

/-! ## Theorems -/

/-- Stripping commas from a comma-free string is the identity. -/
theorem stripCommas_eq_self (s : String) (h : ',' ∉ s.data) :
    stripCommas s = s := by
  cases s with
  | mk l =>
    unfold stripCommas
    congr 1
    apply List.filter_eq_self.mpr
    intro a ha
    simp only [ne_eq, decide_eq_true_eq]
    intro he
    subst he
    exact h ha

/-- Reduction of `ts_to_date` on a string argument: commas are stripped,
then the parse and the `gmtime` range check decide between the formatted
date and the fallback. -/
theorem ts_to_date_str (s : String) :
    ts_to_date (TsLike.str s) =
      (match parseFloatTrunc (stripCommas s) with
       | some num =>
         if tsYear num < gmtimeMinYear ∨ gmtimeMaxYear < tsYear num
         then stripCommas s else formatYMD num
       | none => stripCommas s) := rfl

/-- Characters surviving `dropWhile` were in the original list. -/
theorem dropWhile_mem (p : Char → Bool) (l : List Char) :
    ∀ c ∈ l.dropWhile p, c ∈ l := by
  induction l with
  | nil => intro c hc; exact hc
  | cons a t ih =>
    intro c hc
    rw [List.dropWhile_cons] at hc
    by_cases hp : p a
    · simp only [hp, if_true] at hc
      exact List.mem_cons_of_mem a (ih c hc)
    · simp only [hp, if_false] at hc
      exact hc

/-- Characters surviving the whitespace strip were in the original list. -/
theorem stripSpaces_mem (l : List Char) : ∀ c ∈ stripSpaces l, c ∈ l := by
  intro c hc
  unfold stripSpaces at hc
  rw [List.mem_reverse] at hc
  have hc2 := dropWhile_mem isPySpace _ c hc
  rw [List.mem_reverse] at hc2
  exact dropWhile_mem isPySpace l c hc2

/-- Characters after the sign split were in the original list. -/
theorem splitSign_mem (l : List Char) : ∀ c ∈ (splitSign l).2, c ∈ l := by
  intro c hc
  unfold splitSign at hc
  cases l with
  | nil => exact hc
  | cons a t =>
    by_cases h1 : a = '+'
    · simp only [h1, if_true] at hc
      exact List.mem_cons_of_mem _ hc
    · by_cases h2 : a = '-'
      · simp only [h1, h2, if_false, if_true] at hc
        exact List.mem_cons_of_mem _ hc
      · simp only [h1, h2, if_false] at hc
        exact hc

/-- Characters of the comma-stripped string were in the original string. -/
theorem stripCommas_mem (s : String) :
    ∀ c ∈ (stripCommas s).data, c ∈ s.data := by
  intro c hc
  unfold stripCommas at hc
  exact (List.mem_filter.mp hc).1

/-- A digit-free list yields no `digitpart`. -/
theorem takeDigitsU_none (l : List Char) (h : ∀ c ∈ l, ¬ c.isDigit) :
    takeDigitsU l = ([], l) := by
  cases l with
  | nil => rfl
  | cons c r =>
    have hc := h c (List.mem_cons_self c r)
    simp [takeDigitsU, takeDigitsUAux, hc]

/-- A string with no ASCII digit cannot be parsed: the literal grammar
requires at least one mantissa digit, so the parser fails before any
numeric evaluation. -/
theorem parseFloatTrunc_eq_none (s : String)
    (h : ∀ c ∈ s.data, ¬ c.isDigit) : parseFloatTrunc s = none := by
  have h1 : ∀ c ∈ (splitSign (stripSpaces s.data)).2, ¬ c.isDigit :=
    fun c hc => h c (stripSpaces_mem _ c (splitSign_mem _ c hc))
  have h2 : (splitFrac (splitSign (stripSpaces s.data)).2).1 = [] := by
    cases hcs : (splitSign (stripSpaces s.data)).2 with
    | nil => rfl
    | cons a r =>
      unfold splitFrac
      by_cases ha : a = '.'
      · simp only [ha, if_true]
        have hr : ∀ c ∈ r, ¬ c.isDigit := fun c hc =>
          h1 c (hcs ▸ List.mem_cons_of_mem a hc)
        rw [takeDigitsU_none r hr]
      · simp [ha]
  simp only [parseFloatTrunc]
  rw [takeDigitsU_none _ h1]
  simp [h2]

/-- C1 counterexample: the date string `"un,known"` cannot be parsed as a
number, yet `ts_to_date` returns `"unknown"`, not the original string
unchanged — the comma stripping applied before parsing also mutates the
fallback value. -/
theorem c1_counterexample :
    parseFloatTrunc (stripCommas "un,known") = none ∧
    ts_to_date (TsLike.str "un,known") = "unknown" ∧
    ts_to_date (TsLike.str "un,known") ≠ "un,known" := by
  refine ⟨by decide, by decide, by decide⟩

/-- C1 (amended): for every row whose date field is an ASCII string with no
decimal digit — a string that therefore cannot be parsed as a number, since
every form `float()` accepts on ASCII input either contains a digit or is
an `inf`/`nan` variant on which `int()` raises — `ts_to_date` returns the
comma-stripped form of that string, which equals the original string
exactly when it contains no comma, and, being a total function, never
raises.  The ASCII bound is part of the unparseability certificate: Python
additionally accepts non-ASCII decimal digits. -/
theorem c1_nonnumeric_passthrough (s : String)
    (hA : ∀ c ∈ s.data, c.toNat < 128)
    (hD : ∀ c ∈ s.data, ¬ c.isDigit) :
    parseFloatTrunc (stripCommas s) = none ∧
    ts_to_date (TsLike.str s) = stripCommas s ∧
    (',' ∉ s.data → ts_to_date (TsLike.str s) = s) := by
  have hD2 : ∀ c ∈ (stripCommas s).data, ¬ c.isDigit :=
    fun c hc => hD c (stripCommas_mem s c hc)
  have hnone := parseFloatTrunc_eq_none (stripCommas s) hD2
  have hmain : ts_to_date (TsLike.str s) = stripCommas s := by
    rw [ts_to_date_str, hnone]
  exact ⟨hnone, hmain, fun hc => hmain.trans (stripCommas_eq_self s hc)⟩

/-- C1 witness: the comma-free non-numeric string `"unknown"` passes through
unchanged. -/
theorem c1_witness :
    (∀ c ∈ "unknown".data, c.toNat < 128) ∧
    (∀ c ∈ "unknown".data, ¬ c.isDigit) ∧
    (parseFloatTrunc (stripCommas "unknown") = none ∧
     ts_to_date (TsLike.str "unknown") = stripCommas "unknown" ∧
     (',' ∉ "unknown".data → ts_to_date (TsLike.str "unknown") = "unknown")) :=
  ⟨by decide, by decide,
   c1_nonnumeric_passthrough "unknown" (by decide) (by decide)⟩

/-- C6: for every row whose date field is a numeric string (in particular one
with thousands-separator commas), `ts_to_date` strips the commas, computes
`int(float(s))` — rounding to the nearest binary64 first, then truncating —
to the integer timestamp `n`, and formats `n` as a `YYYY-MM-DD` date in
UTC.  Stated for timestamps whose civil year has four digits (1000-01-01
through 9999-12-31): inside this range `gmtime` cannot fail and the
embedded calendar arithmetic is unconditionally faithful to the C library
the source calls into. -/
theorem c6_numeric_comma_date (s : String) (n : Int)
    (h : parseFloatTrunc (stripCommas s) = some n)
    (hlo : 1000 ≤ tsYear n) (hhi : tsYear n ≤ 9999) :
    ts_to_date (TsLike.str s) = formatYMD n := by
  have hg : ¬ (tsYear n < gmtimeMinYear ∨ gmtimeMaxYear < tsYear n) := by
    simp only [gmtimeMinYear, gmtimeMaxYear]
    omega
  rw [ts_to_date_str, h]
  exact if_neg hg

/-- C6 witness: `"1,700,000,000"` parses to the timestamp 1700000000 and
formats as 2023-11-14. -/
theorem c6_witness :
    parseFloatTrunc (stripCommas "1,700,000,000") = some 1700000000 ∧
    (1000 ≤ tsYear 1700000000 ∧ tsYear 1700000000 ≤ 9999) ∧
    ts_to_date (TsLike.str "1,700,000,000") = formatYMD 1700000000 ∧
    formatYMD 1700000000 = "2023-11-14" :=
  ⟨by decide, by decide,
   c6_numeric_comma_date "1,700,000,000" 1700000000 (by decide) (by decide) (by decide),
   by decide⟩

/-- C9: when a row's date field is absent (`None`), `ts_to_date` returns the
empty string, so the escaped date badge the renderer embeds (position 2 of
`articleFields`) is empty rather than the text `"None"`; the comma-strip and
string conversion applied on the other branch would instead have produced
`"None"`, so the `None` short-circuit indeed fires before any string
conversion. -/
theorem c9_none_date_renders_empty (item : RowItem)
    (h : item.inner.date = TsLike.null) :
    ts_to_date TsLike.null = "" ∧
    (articleFields item).get? 2 = some "" ∧
    stripCommas (pyStr TsLike.null) = "None" := by
  refine ⟨rfl, ?_, by decide⟩
  simp [articleFields, h, ts_to_date, pyHtmlEscape, escList]

/-- C9 witness: a row with no date field renders an empty date badge. -/
theorem c9_witness :
    (RowItem.mk (some {})).inner.date = TsLike.null ∧
    (ts_to_date TsLike.null = "" ∧
     (articleFields (RowItem.mk (some {}))).get? 2 = some "" ∧
     stripCommas (pyStr TsLike.null) = "None") :=
  ⟨by decide, c9_none_date_renders_empty (RowItem.mk (some {})) (by decide)⟩

/-- Prepending the escape of one character preserves `Escaped`. -/
theorem escChar_escaped (c : Char) {t : List Char} (ht : Escaped t) :
    Escaped (escChar c ++ t) := by
  unfold escChar
  split
  · exact Escaped.amp ht
  · split
    · exact Escaped.lt ht
    · split
      · exact Escaped.gt ht
      · split
        · exact Escaped.quot ht
        · split
          · exact Escaped.apos ht
          · exact Escaped.raw c (by simp [*]) ht

/-- The escaped form of any character list is `Escaped`. -/
theorem escList_escaped (l : List Char) : Escaped (escList l) := by
  induction l with
  | nil => exact Escaped.nil
  | cons c t ih =>
    rw [escList]
    exact escChar_escaped c ih

/-- C8: every field value the renderer embeds — the five escaped strings of
`articleFields`, for any input row — is a concatenation of safe characters
and escape entities, so the produced fragment carries no unescaped `<`, `>`,
`&` or quote character originating from the source data; each field is
escaped independently by `pyHtmlEscape` before embedding. -/
theorem c8_fields_escaped (item : RowItem) (s : String)
    (h : s ∈ articleFields item) : Escaped s.data := by
  simp only [articleFields, List.mem_cons, List.mem_singleton,
    List.not_mem_nil, or_false] at h
  rcases h with h | h | h | h | h <;> subst h <;> exact escList_escaped _

/-- C8 witness: the escape of a topic packed with special characters is a
fully escaped embedding. -/
theorem c8_witness :
    Escaped (pyHtmlEscape "<b>&\"'x").data :=
  c8_fields_escaped (RowItem.mk (some { topic := some "<b>&\"'x" }))
    (pyHtmlEscape "<b>&\"'x") (by decide)

/-- Length of a concatenation of strings. -/
theorem strLength_append (s t : String) :
    (s ++ t).length = s.length + t.length := by
  cases s with
  | mk a =>
    cases t with
    | mk b =>
      show (String.mk (a ++ b)).length = _
      simp [String.length]

/-- C7 counterexample: at HTTP status 404 the fetch raises `urlopen`'s
`HTTPError`, whose message `"HTTP Error 404: Not Found"` is shorter than
the requested URL and so cannot contain it — the claim that every non-200
fetch error message includes the requested URL fails on the program. -/
theorem c7_counterexample :
    fetch_rows "myorg/mydataset" "default" "train" 0 100
        ⟨404, "Not Found", none⟩ =
      Except.error "HTTP Error 404: Not Found" ∧
    ¬ ContainsStr "HTTP Error 404: Not Found"
        (requestURL "myorg/mydataset" "default" "train" 0 100) := by
  constructor
  · rfl
  · rintro ⟨a, b, he⟩
    have hl := congrArg String.length he
    rw [strLength_append, strLength_append] at hl
    have h1 : (requestURL "myorg/mydataset" "default" "train" 0 100).length
        = 116 := by decide
    have h2 : ("HTTP Error 404: Not Found" : String).length = 25 := by decide
    rw [h1, h2] at hl
    omega

/-- C7 (amended): for every fetch whose final HTTP status lies outside the
2xx range, `urlopen` raises an `HTTPError` whose message contains the
status but not the requested URL; only for a 2xx status other than 200
does the source's own `RuntimeError` fire, with a message containing both
the status and the URL; and for status 200 the decoded body's `rows` value
is returned, defaulting to the empty sequence when the key is absent. -/
theorem c7_fetch_contract (dataset config split : String)
    (offset length : Nat) (resp : HttpResponse) :
    (resp.status < 200 ∨ 300 ≤ resp.status →
      fetch_rows dataset config split offset length resp =
        Except.error ("HTTP Error " ++ toString resp.status ++ ": " ++
          resp.reason) ∧
      ContainsStr ("HTTP Error " ++ toString resp.status ++ ": " ++
          resp.reason)
        (toString resp.status)) ∧
    (200 ≤ resp.status → resp.status < 300 → resp.status ≠ 200 →
      fetch_rows dataset config split offset length resp =
        Except.error ("HTTP " ++ toString resp.status ++ " for " ++
          requestURL dataset config split offset length) ∧
      ContainsStr
        ("HTTP " ++ toString resp.status ++ " for " ++
          requestURL dataset config split offset length)
        (toString resp.status) ∧
      ContainsStr
        ("HTTP " ++ toString resp.status ++ " for " ++
          requestURL dataset config split offset length)
        (requestURL dataset config split offset length)) ∧
    (resp.status = 200 →
      fetch_rows dataset config split offset length resp =
        Except.ok (resp.rows.getD [])) := by
  refine ⟨fun hc => ⟨?_, ?_⟩, fun ha hb hne => ⟨?_, ?_, ?_⟩, fun he => ?_⟩
  · simp only [fetch_rows]
    rw [if_pos hc]
  · exact ⟨"HTTP Error ", ": " ++ resp.reason, by simp [String.append_assoc]⟩
  · have hc : ¬ (resp.status < 200 ∨ 300 ≤ resp.status) := by omega
    simp only [fetch_rows]
    rw [if_neg hc, if_pos hne]
  · exact ⟨"HTTP ", " for " ++ requestURL dataset config split offset length,
      by simp [String.append_assoc]⟩
  · exact ⟨"HTTP " ++ toString resp.status ++ " for ", "",
      by simp [String.append_assoc]⟩
  · have hc : ¬ (resp.status < 200 ∨ 300 ≤ resp.status) := by omega
    have hne : ¬ (resp.status ≠ 200) := by omega
    simp only [fetch_rows]
    rw [if_neg hc, if_neg hne]

/-- C7 witness: a 404 response raises the URL-free `HTTPError` message, a
204 response raises the `RuntimeError` with status and URL, and a 200
response returns the `rows` value. -/
theorem c7_witness :
    ((404 : Nat) < 200 ∨ 300 ≤ (404 : Nat)) ∧
    (fetch_rows "myorg/mydataset" "default" "train" 0 100
        ⟨404, "Not Found", none⟩ =
      Except.error ("HTTP Error " ++ toString (404 : Nat) ++ ": " ++
        "Not Found") ∧
     ContainsStr ("HTTP Error " ++ toString (404 : Nat) ++ ": " ++
        "Not Found") (toString (404 : Nat))) ∧
    (fetch_rows "myorg/mydataset" "default" "train" 0 100
        ⟨204, "No Content", none⟩ =
      Except.error ("HTTP " ++ toString (204 : Nat) ++ " for " ++
        requestURL "myorg/mydataset" "default" "train" 0 100) ∧
     ContainsStr
       ("HTTP " ++ toString (204 : Nat) ++ " for " ++
         requestURL "myorg/mydataset" "default" "train" 0 100)
       (toString (204 : Nat)) ∧
     ContainsStr
       ("HTTP " ++ toString (204 : Nat) ++ " for " ++
         requestURL "myorg/mydataset" "default" "train" 0 100)
       (requestURL "myorg/mydataset" "default" "train" 0 100)) ∧
    fetch_rows "myorg/mydataset" "default" "train" 0 100
        ⟨200, "OK", some [RowItem.mk none]⟩ =
      Except.ok [RowItem.mk none] :=
  ⟨by decide,
   (c7_fetch_contract "myorg/mydataset" "default" "train" 0 100
      ⟨404, "Not Found", none⟩).1 (by decide),
   (c7_fetch_contract "myorg/mydataset" "default" "train" 0 100
      ⟨204, "No Content", none⟩).2.1 (by decide) (by decide) (by decide),
   (c7_fetch_contract "myorg/mydataset" "default" "train" 0 100
      ⟨200, "OK", some [RowItem.mk none]⟩).2.2 rfl⟩

set_option maxHeartbeats 4000000 in
/-- Concrete evaluation of the writer's URL join for the index document. -/
theorem sitemapJoin_index :
    sitemapJoin "https://x.io/site/" "index.html" =
      "https://x.io/site/index.html" := by decide

set_option maxHeartbeats 4000000 in
/-- Concrete evaluation of the writer's URL join for page 1. -/
theorem sitemapJoin_page1 :
    sitemapJoin "https://x.io/site/" "page-0001.html" =
      "https://x.io/site/page-0001.html" := by decide

set_option maxHeartbeats 4000000 in
/-- Concrete evaluation of the writer's URL join for page 2. -/
theorem sitemapJoin_page2 :
    sitemapJoin "https://x.io/site/" "page-0002.html" =
      "https://x.io/site/page-0002.html" := by decide

/-- C5: for the configured base URL of the spec's sitemap scenario — in
both its slash-terminated and slashless spellings, the Sitemap Writer
ensuring the trailing slash before joining — and any manifest of pages
`[1, 2]`, the emitted sitemap contains exactly three `<url>` entries: the
index document, `page-0001.html` and `page-0002.html`, in that order, each
an absolute URL under the base URL; `write_sitemap` emits one escaped
`<url><loc>` line per entry. -/
theorem c5_sitemap_three_urls (c1 c2 : Nat) :
    sitemapUrls "https://x.io/site/" [(1, c1), (2, c2)] =
      ["https://x.io/site/index.html",
       "https://x.io/site/page-0001.html",
       "https://x.io/site/page-0002.html"] ∧
    (sitemapUrls "https://x.io/site/" [(1, c1), (2, c2)]).length = 3 ∧
    (∀ u ∈ sitemapUrls "https://x.io/site/" [(1, c1), (2, c2)],
      ∃ rel, u = "https://x.io/site/" ++ rel) ∧
    sitemapUrls "https://x.io/site" [(1, c1), (2, c2)] =
      sitemapUrls "https://x.io/site/" [(1, c1), (2, c2)] ∧
    write_sitemap "https://x.io/site/" [(1, c1), (2, c2)] =
      some (String.intercalate "\n"
        ["<?xml version=\"1.0\" encoding=\"UTF-8\"?>",
         "<urlset xmlns=\"http://www.sitemaps.org/schemas/sitemap/0.9\">",
         "  <url><loc>https://x.io/site/index.html</loc></url>",
         "  <url><loc>https://x.io/site/page-0001.html</loc></url>",
         "  <url><loc>https://x.io/site/page-0002.html</loc></url>",
         "</urlset>"]) := by
  have hp1 : page_filename 1 = "page-0001.html" := by decide
  have hp2 : page_filename 2 = "page-0002.html" := by decide
  have heq : sitemapUrls "https://x.io/site/" [(1, c1), (2, c2)] =
      ["https://x.io/site/index.html",
       "https://x.io/site/page-0001.html",
       "https://x.io/site/page-0002.html"] := by
    simp [sitemapUrls, hp1, hp2, sitemapJoin_index, sitemapJoin_page1,
      sitemapJoin_page2]
  have hesA : ensureSlash "https://x.io/site" = "https://x.io/site/" := by decide
  have hesB : ensureSlash "https://x.io/site/" = "https://x.io/site/" := by decide
  have he1 : pyHtmlEscape "https://x.io/site/index.html" =
      "https://x.io/site/index.html" := by decide
  have he2 : pyHtmlEscape "https://x.io/site/page-0001.html" =
      "https://x.io/site/page-0001.html" := by decide
  have he3 : pyHtmlEscape "https://x.io/site/page-0002.html" =
      "https://x.io/site/page-0002.html" := by decide
  have hne : ¬ ("https://x.io/site/" = "") := by decide
  refine ⟨heq, by rw [heq]; rfl, ?_,
    by simp [sitemapUrls, sitemapJoin, hesA, hesB], ?_⟩
  · intro u hu
    rw [heq] at hu
    simp only [List.mem_cons, List.not_mem_nil, or_false] at hu
    rcases hu with hu | hu | hu
    · exact ⟨"index.html", hu.trans rfl⟩
    · exact ⟨"page-0001.html", hu.trans rfl⟩
    · exact ⟨"page-0002.html", hu.trans rfl⟩
  · simp only [write_sitemap, if_neg hne, heq, List.map_cons, List.map_nil,
      he1, he2, he3]
    rfl

/-- C2 counterexample: in the run whose first fetch raises, `main` writes no
pages, lets the exception propagate, and writes neither `index.html` nor a
sitemap — the Index Writer is not invoked, contrary to the claim. -/
theorem c2_counterexample :
    mainRun "slava-medvedev/zelensky-speeches" 100 "" [FetchResult.err] =
      some { written := [], indexHtml := none, sitemapXml := none,
             raisedError := true } := by
  decide

/-- C2 (amended): whenever a fetch call fails, the exception propagates out
of `main`, so the run ends with neither `index.html` nor `sitemap.xml`
written; the index is written only when the loop terminates on an empty
page. -/
theorem c2_fetch_failure_skips_index (dataset : String) (rpp : Nat)
    (base_url : String) (script : List FetchResult) (res : MainResult)
    (h : mainRun dataset rpp base_url script = some res)
    (hr : res.raisedError = true) :
    res.indexHtml = none ∧ res.sitemapXml = none := by
  unfold mainRun at h
  split at h
  · cases h
    simp at hr
  · cases h
    exact ⟨rfl, rfl⟩
  · cases h

/-- C2 witness: the failing-first-fetch run ends with no index and no
sitemap. -/
theorem c2_witness :
    (mainRun "d" 100 "" [FetchResult.err] =
      some { written := [], indexHtml := none, sitemapXml := none,
             raisedError := true }) ∧
    (({ written := [], indexHtml := none, sitemapXml := none,
        raisedError := true } : MainResult).raisedError = true) ∧
    (({ written := [], indexHtml := none, sitemapXml := none,
        raisedError := true } : MainResult).indexHtml = none ∧
     ({ written := [], indexHtml := none, sitemapXml := none,
        raisedError := true } : MainResult).sitemapXml = none) :=
  ⟨by decide, by decide,
   c2_fetch_failure_skips_index "d" 100 "" [FetchResult.err]
     { written := [], indexHtml := none, sitemapXml := none,
       raisedError := true } (by decide) (by decide)⟩

/-- C3: in any run whose three successive fetches return 100, 100 and 0
rows, `main` writes exactly the two page files `page-0001.html` and
`page-0002.html` and an index document whose navigation holds the links for
pages 1 and 2 with row counts 100 and 100, in that order. -/
theorem c3_two_pages_then_empty (dataset base_url : String) (rpp : Nat)
    (r1 r2 : List RowItem) (h1 : r1.length = 100) (h2 : r2.length = 100) :
    mainRun dataset rpp base_url
        [FetchResult.ok r1, FetchResult.ok r2, FetchResult.ok []] =
      some { written := [(1, r1), (2, r2)]
             indexHtml := some (write_index_html [(1, 100), (2, 100)]
               (dataset ++ " – index")
               ("https://huggingface.co/datasets/" ++ dataset))
             sitemapXml := write_sitemap base_url [(1, 100), (2, 100)]
             raisedError := false } ∧
    [(1, r1), (2, r2)].map (fun w => page_filename w.1) =
      ["page-0001.html", "page-0002.html"] ∧
    indexNav [(1, 100), (2, 100)] = pageLink 1 100 ++ pageLink 2 100 := by
  have he1 : r1.isEmpty = false := by
    cases r1 with
    | nil => simp at h1
    | cons a t => rfl
  have he2 : r2.isEmpty = false := by
    cases r2 with
    | nil => simp at h2
    | cons a t => rfl
  have hp1 : page_filename 1 = "page-0001.html" := by decide
  have hp2 : page_filename 2 = "page-0002.html" := by decide
  refine ⟨?_, by simp [hp1, hp2], rfl⟩
  simp [mainRun, buildLoop, initState, stepState, he1, he2, h1, h2]

/-- C3 witness: the scenario run with two batches of 100 blank rows. -/
theorem c3_witness :
    (List.replicate 100 (RowItem.mk none)).length = 100 ∧
    (mainRun "d" 100 ""
        [FetchResult.ok (List.replicate 100 (RowItem.mk none)),
         FetchResult.ok (List.replicate 100 (RowItem.mk none)),
         FetchResult.ok []] =
      some { written := [(1, List.replicate 100 (RowItem.mk none)),
                         (2, List.replicate 100 (RowItem.mk none))]
             indexHtml := some (write_index_html [(1, 100), (2, 100)]
               ("d" ++ " – index")
               ("https://huggingface.co/datasets/" ++ "d"))
             sitemapXml := write_sitemap "" [(1, 100), (2, 100)]
             raisedError := false } ∧
    [(1, List.replicate 100 (RowItem.mk none)),
     (2, List.replicate 100 (RowItem.mk none))].map
        (fun w => page_filename w.1) =
      ["page-0001.html", "page-0002.html"] ∧
    indexNav [(1, 100), (2, 100)] = pageLink 1 100 ++ pageLink 2 100) :=
  ⟨by simp,
   c3_two_pages_then_empty "d" "" 100
     (List.replicate 100 (RowItem.mk none))
     (List.replicate 100 (RowItem.mk none)) (by simp) (by simp)⟩

/-- C4: in any run whose very first fetch returns no rows, `main` writes
zero page files yet still writes `index.html`, whose navigation region is
the `"No pages found."` placeholder instead of a list of links, and no
exception is raised. -/
theorem c4_empty_first_fetch (dataset base_url : String) (rpp : Nat)
    (rest : List FetchResult) :
    mainRun dataset rpp base_url (FetchResult.ok [] :: rest) =
      some { written := []
             indexHtml := some (write_index_html []
               (dataset ++ " – index")
               ("https://huggingface.co/datasets/" ++ dataset))
             sitemapXml := write_sitemap base_url []
             raisedError := false } ∧
    write_index_html [] (dataset ++ " – index")
        ("https://huggingface.co/datasets/" ++ dataset) =
      indexDocPre (dataset ++ " – index")
          ("https://huggingface.co/datasets/" ++ dataset) ++
        "<li>No pages found.</li>" ++ indexDocPost := by
  constructor
  · simp [mainRun, buildLoop, initState]
  · simp [write_index_html, indexNav, String.append_assoc]

/-- Step of a non-empty iteration preserves the loop invariant. -/
theorem stepState_inv (rpp : Nat) (st : BuildState) (rows : List RowItem)
    (h : LoopInv rpp st) : LoopInv rpp (stepState rpp st rows) := by
  obtain ⟨h1, h2, h3, h4⟩ := h
  refine ⟨Nat.le_succ_of_le h1, ?_, ?_, ?_⟩
  · simp only [stepState, Nat.add_sub_cancel]
    rw [h2, ← Nat.succ_pred_eq_of_pos h1, Nat.succ_mul, Nat.succ_sub_one]
  · simp only [stepState, Nat.add_sub_cancel, List.map_append, List.map_cons,
      List.map_nil, h3]
    rw [← Nat.succ_pred_eq_of_pos h1, List.range'_concat, Nat.succ_sub_one]
    congr 2
    omega
  · simp only [stepState, List.map_append, List.map_cons, List.map_nil, h4]

/-- All states on a loop trace satisfy the invariant if the first does. -/
theorem buildTrace_inv (rpp : Nat) (script : List FetchResult) :
    ∀ st, LoopInv rpp st →
      ∀ st' ∈ buildTrace rpp script st, LoopInv rpp st' := by
  induction script with
  | nil =>
    intro st h st' h'
    simp only [buildTrace, List.mem_singleton] at h'
    exact h' ▸ h
  | cons f rest ih =>
    intro st h st' h'
    cases f with
    | err =>
      simp only [buildTrace, List.mem_singleton] at h'
      exact h' ▸ h
    | ok rows =>
      cases rows with
      | nil =>
        simp only [buildTrace, List.isEmpty_nil, if_true,
          List.mem_singleton] at h'
        exact h' ▸ h
      | cons a t =>
        rw [buildTrace] at h'
        simp only [List.isEmpty_cons, Bool.false_eq_true, if_false,
          List.mem_cons] at h'
        rcases h' with h' | h'
        · exact h' ▸ h
        · exact ih (stepState rpp st (a :: t))
            (stepState_inv rpp st (a :: t) h) st' h'

/-- C10: at the start of every iteration of `main`'s fetch loop — every
state on the trace from the initial state — `offset = (page_idx - 1) *
rows_per_page` holds, the manifest's page indices are exactly `1 …
page_idx - 1` in order, and each manifest entry pairs a written page's
index with that page's row count. -/
theorem c10_loop_invariant (rpp : Nat) (script : List FetchResult)
    (st : BuildState) (h : st ∈ buildTrace rpp script initState) :
    LoopInv rpp st :=
  buildTrace_inv rpp script initState
    (by constructor <;> simp [initState]) st h

/-- C10 witness: the state after one written page in a two-fetch run
satisfies the invariant. -/
theorem c10_witness :
    (stepState 100 initState [RowItem.mk none] ∈
      buildTrace 100 [FetchResult.ok [RowItem.mk none], FetchResult.ok []]
        initState) ∧
    LoopInv 100 (stepState 100 initState [RowItem.mk none]) :=
  ⟨by decide,
   c10_loop_invariant 100
     [FetchResult.ok [RowItem.mk none], FetchResult.ok []]
     (stepState 100 initState [RowItem.mk none]) (by decide)⟩

end Build
